import Mathlib

/-!
Verification of the field-validation, form-binding and wizard-orchestration
core of fast-gov-uk, as a shallow embedding of the Python sources
(fast_gov_uk/forms.py, fast_gov_uk/core.py, design_system/inputs.py,
design_system/contrib.py).  Stringly typed Python values are embedded as
Lean Strings, dicts as association lists, async exceptions as Except, and
the HTTP outcomes of the wizard handler as an explicit Outcome type.
-/

set_option maxHeartbeats 1000000

namespace FastGovUk

/-! ## Python primitives -/

/-- Python truthiness of a string: only the empty string is falsy. -/
def strEmpty (s : String) : Bool := s.data.isEmpty

/-- Character count of a string, matching Python len() on str
    (both count unicode code points). -/
def strLen (s : String) : Nat := s.data.length

/-- Decimal digits of a numeral, most significant first. -/
def parseDigitsAux : List Char → Nat → Option Nat
  | [], acc => some acc
  | c :: cs, acc =>
    if c.isDigit then parseDigitsAux cs (acc * 10 + (c.toNat - 48)) else none

/-- Model of Python int(str): surrounding whitespace is stripped, then an
    optional sign followed by at least one decimal digit.  (Underscore
    separators and non-ASCII digits, which CPython also accepts, are not
    modelled; no input in this development uses them.)  Returns none where
    int() raises ValueError. -/
def pyIntChars (cs : List Char) : Option Int :=
  let t := ((cs.dropWhile Char.isWhitespace).reverse.dropWhile Char.isWhitespace).reverse
  match t with
  | [] => none
  | c :: rest =>
    if c = '-' then
      if rest.isEmpty then none else (parseDigitsAux rest 0).map (fun n => -(n : Int))
    else if c = '+' then
      if rest.isEmpty then none else (parseDigitsAux rest 0).map (fun n => (n : Int))
    else (parseDigitsAux t 0).map (fun n => (n : Int))

/-- Python int() on a string value. -/
def pyInt? (s : String) : Option Int := pyIntChars s.data

/-- Python str.split() with no separator: whitespace-delimited words,
    empty pieces dropped. -/
def pyWords (s : String) : List (List Char) :=
  (s.data.splitOnP Char.isWhitespace).filter (fun w => !w.isEmpty)

/-- Word count used by the CharacterCount maxwords check. -/
def pyWordCount (s : String) : Nat := (pyWords s).length

/-- Python list indexing semantics: nonnegative indices from the front,
    negative indices from the back, none where Python raises IndexError. -/
def pyIndex {α : Type} (l : List α) (i : Int) : Option α :=
  if 0 ≤ i then l.get? i.toNat
  else if 0 ≤ (l.length : Int) + i then l.get? ((l.length : Int) + i).toNat
  else none

/-- Lookup in an association list, i.e. Python dict.get(k). -/
def lookupAL {α : Type} (l : List (String × α)) (k : String) : Option α :=
  (l.find? (fun p => p.1 == k)).map (fun p => p.2)

/-- Single-key assignment d[k] = v on an association list: overwrites the
    first binding of k in place, otherwise appends. -/
def setAL {α : Type} : List (String × α) → String → α → List (String × α)
  | [], k, v => [(k, v)]
  | p :: rest, k, v => if p.1 == k then (k, v) :: rest else p :: setAL rest k v

/-- Python dict.update(new): assigns each binding of new in iteration
    order. -/
def updAL {α : Type} (old : List (String × α)) : List (String × α) → List (String × α)
  | [] => old
  | (k, v) :: rest => updAL (setAL old k v) rest

/-- List-prefix test on strings (used to compare a URL against a route
    prefix). -/
def strStartsWith (s p : String) : Bool := p.data.isPrefixOf s.data

/-! ## Field validation (design_system/inputs.py, design_system/contrib.py)

Each Python value setter stores the raw value and then updates self.error.
The error computation of each variant is embedded as a function of the
required flag, the error already stored on the field, and the newly
assigned raw value; none of the setters ever assigns an empty string to
self.error, so a previously recorded error can only be overwritten by
another message, never cleared. -/

/-- Message assigned by every required field when its raw value is falsy
    (inputs.py, Field.value setter and all overrides). -/
def requiredMsg : String := "This field is required."

/-- Error computation of the base Field.value setter (inputs.py lines
    124-134): assigns the required message when the field is required and
    the incoming value is falsy, otherwise leaves self.error untouched.
    Radios, Checkboxes, Select, Textarea, TextInput and PasswordInput all
    inherit this setter unchanged. -/
def fieldSetError (required : Bool) (error : String) (v : String) : String :=
  if required && strEmpty v then requiredMsg else error

/-- Field.clean (inputs.py lines 118-122): none when the stored value is
    falsy, otherwise the raw value itself. -/
def fieldClean (value : String) : Option String :=
  if strEmpty value then none else some value

/-- Error computation of NumberInput.value (contrib.py lines 41-51): the
    int() conversion check only runs inside the `if self.required:` branch. -/
def numberSetError (required : Bool) (error : String) (v : String) : String :=
  if required then
    if strEmpty v then requiredMsg
    else if (pyInt? v).isSome then error
    else "Value is not a number."
  else error

/-- Error computation of DecimalInput.value (contrib.py lines 72-82); the
    float() parse of the Python runtime is passed in as a predicate.  As in
    the source, the check only runs when the field is required. -/
def decimalSetError (parsesFloat : String → Bool) (required : Bool)
    (error : String) (v : String) : String :=
  if required then
    if strEmpty v then requiredMsg
    else if parsesFloat v then error
    else "Value is not a number."
  else error

/-- Error computation of EmailInput.value (contrib.py lines 18-27); the
    address part extracted by email.utils.parseaddr is passed in as a
    function, and the check is membership of "@" in it.  As in the source,
    the check only runs when the field is required. -/
def emailSetError (parseaddrAddr : String → String) (required : Bool)
    (error : String) (v : String) : String :=
  if required then
    if strEmpty v then requiredMsg
    else if (parseaddrAddr v).contains '@' then error
    else "Value is not an email."
  else error

/-- Error computation of RegexInput.value (contrib.py lines 129-138); the
    re.compile(regex).match test is passed in as a predicate.  As in the
    source, the check only runs when the field is required. -/
def regexSetError (regexMatches : String → Bool) (required : Bool)
    (error : String) (v : String) : String :=
  if required then
    if strEmpty v then requiredMsg
    else if regexMatches v then error
    else "Value does not match the required format."
  else error

/-- CharacterCount message for the maxchars check (inputs.py line 375). -/
def ccCharsMsg (n : Nat) : String := "Characters exceed limit of " ++ toString n ++ "."

/-- CharacterCount message for the maxwords check (inputs.py line 379). -/
def ccWordsMsg (n : Nat) : String := "Words exceed limit of " ++ toString n ++ "."

/-- Error computation of CharacterCount.value (inputs.py lines 367-379).
    A limit of Python None or 0 is falsy, so that check is skipped; unlike
    the other variants the length checks run whether or not the field is
    required, and the word check runs after the character check. -/
def ccSetError (maxchars maxwords : Option Nat) (required : Bool)
    (error : String) (v : String) : String :=
  if required && strEmpty v then requiredMsg
  else
    let e1 :=
      match maxchars with
      | some n => if n ≠ 0 ∧ strLen v > n then ccCharsMsg n else error
      | none => error
    match maxwords with
    | some n => if n ≠ 0 ∧ pyWordCount v > n then ccWordsMsg n else e1
    | none => e1

/-- Raw value a DateInput can be assigned through Form.bind: either the
    empty string (data.get(name, "") when the key is absent from the posted
    data) or the list of the three posted strings for day, month, year. -/
inductive DateRaw where
  | absent
  | list3 (day month year : String)
deriving DecidableEq

/-- Stored value after the DateInput.value setter normalised the input with
    `value or ("", "", "")`: a falsy input becomes the Python TUPLE
    ("", "", ""), while a 3-element list (truthy even when its components
    are empty strings) is stored unchanged as a Python LIST.  The
    tuple/list distinction is kept because DateInput.clean compares the
    stored value against the list literal ["", "", ""] with ==, and in
    Python a tuple never equals a list. -/
inductive DateStored where
  | tup (day month year : String)
  | lst (day month year : String)
deriving DecidableEq

/-- Normalisation performed at the top of the DateInput.value setter
    (inputs.py line 1045). -/
def dateStore : DateRaw → DateStored
  | .absent => .tup "" "" ""
  | .list3 d m y => .lst d m y

/-- Unpacking `day, month, year = self._value`. -/
def dateParts : DateStored → String × String × String
  | .tup d m y => (d, m, y)
  | .lst d m y => (d, m, y)

/-- Gregorian leap-year rule used by Python datetime.date. -/
def isLeapYear (y : Int) : Bool := y % 4 == 0 && (y % 100 != 0 || y % 400 == 0)

/-- Days in a month of the proleptic Gregorian calendar. -/
def daysInMonth (y m : Int) : Int :=
  if m == 2 then (if isLeapYear y then 29 else 28)
  else if m == 4 || m == 6 || m == 9 || m == 11 then 30
  else 31

/-- Domain on which Python datetime.date(year=y, month=m, day=d) constructs
    a date instead of raising ValueError. -/
def isValidDate (y m d : Int) : Bool :=
  1 ≤ y && y ≤ 9999 && 1 ≤ m && m ≤ 12 && 1 ≤ d && d ≤ daysInMonth y m

/-- Zero-padding to two digits. -/
def pad2 (n : Nat) : String := if n < 10 then "0" ++ toString n else toString n

/-- Zero-padding to four digits. -/
def pad4 (n : Nat) : String :=
  if n < 10 then "000" ++ toString n
  else if n < 100 then "00" ++ toString n
  else if n < 1000 then "0" ++ toString n
  else toString n

/-- date.isoformat() for an in-range date. -/
def isoDate (y m d : Int) : String :=
  pad4 y.toNat ++ "-" ++ pad2 m.toNat ++ "-" ++ pad2 d.toNat

/-- Error computation of DateInput.value (inputs.py lines 1043-1055): the
    checks are gated on required; a missing component yields the required
    message, and an unparseable component or an impossible calendar date
    yields "Invalid values.". -/
def dateSetError (required : Bool) (error : String) (v : DateRaw) : String :=
  let p := dateParts (dateStore v)
  if required then
    if strEmpty p.1 || strEmpty p.2.1 || strEmpty p.2.2 then requiredMsg
    else
      match pyInt? p.1, pyInt? p.2.1, pyInt? p.2.2 with
      | some dd, some mm, some yy =>
          if isValidDate yy mm dd then error else "Invalid values."
      | _, _, _ => "Invalid values."
  else error

/-- DateInput.clean (inputs.py lines 1031-1041): returns None only when the
    stored value equals the LIST ["", "", ""] under Python ==; otherwise it
    converts the components with int() and builds a date, and the
    ValueError raised by int() or date() on bad components is re-raised
    (modelled as .error "ValueError"). -/
def dateClean (stored : DateStored) : Except String (Option String) :=
  if stored = DateStored.lst "" "" "" then .ok none
  else
    let p := dateParts stored
    match pyInt? p.1, pyInt? p.2.1, pyInt? p.2.2 with
    | some dd, some mm, some yy =>
        if isValidDate yy mm dd then .ok (some (isoDate yy mm dd))
        else .error "ValueError"
    | _, _, _ => .error "ValueError"

/-- Raw value a FileUpload can hold: the empty string from an absent key,
    or an upload object whose filename attribute may be missing. -/
inductive FileRaw where
  | emptyStr
  | upload (filename : Option String)
deriving DecidableEq

/-- FileUpload.valid_file (inputs.py lines 917-920):
    getattr(value, "filename", None) is not None. -/
def validFile : FileRaw → Bool
  | .emptyStr => false
  | .upload fn => fn.isSome

/-- Error computation of FileUpload.value (inputs.py lines 922-927). -/
def fileSetError (required : Bool) (error : String) (v : FileRaw) : String :=
  if required && !validFile v then requiredMsg else error

/-- Radios.clean (inputs.py lines 856-860): the label of the first radio
    whose value equals the field value, none when no radio matches.  Radios
    are given as (value, label) pairs in declaration order, exactly how
    make_radios builds them from the choices dict. -/
def radiosClean (radios : List (String × String)) (value : String) : Option String :=
  (radios.find? (fun rv => rv.1 == value)).map (fun rv => rv.2)

/-- Checkboxes.clean (inputs.py lines 670-674): same selection as Radios. -/
def checkboxesClean (checkboxes : List (String × String)) (value : String) : Option String :=
  (checkboxes.find? (fun cb => cb.1 == value)).map (fun cb => cb.2)

/-! ## Form binding and the wizard state machine (forms.py, core.py)

The wizard claims only exercise fields through Form.bind, Form.valid and
the two maps built by _Question.clean, so a wizard field is embedded with
the base Field semantics: setter fieldSetError, cleaner fieldClean. -/

/-- Declaration of one field inside a Question: its name and required
    flag. -/
structure FieldSpec where
  name : String
  required : Bool
deriving DecidableEq

/-- Per-request state of a bound field: the error string and the stored raw
    value (none when the value was never assigned, as with a fresh field
    rendered on GET). -/
structure WField where
  name : String
  required : Bool
  error : String
  value : Option String
deriving DecidableEq

/-- State of a freshly constructed Field (inputs.py lines 95-112):
    error "" and _value None. -/
def unboundField (f : FieldSpec) : WField :=
  { name := f.name, required := f.required, error := "", value := none }

/-- Form.bind for one field (forms.py lines 241-250):
    field.value = data.get(field.name, ""). -/
def bindField (f : FieldSpec) (post : List (String × String)) : WField :=
  let v := (lookupAL post f.name).getD ""
  { name := f.name, required := f.required,
    error := fieldSetError f.required "" v, value := some v }

/-- Construction of the per-step _Question form (forms.py lines 306-318 and
    170-197): fields are fresh, and bind only runs when data is not None. -/
def mkQuestionFields (fs : List FieldSpec) (data : Option (List (String × String))) :
    List WField :=
  match data with
  | none => fs.map unboundField
  | some d => fs.map (fun f => bindField f d)

/-- Form.valid (forms.py lines 223-230): every field error is empty. -/
def questionValid (fields : List WField) : Bool :=
  fields.all (fun f => f.error == "")

/-- Raw-value map of _Question.clean (forms.py line 327):
    {f.name: f.value}. -/
def qValues (fields : List WField) : List (String × String) :=
  fields.map (fun f => (f.name, f.value.getD ""))

/-- Cleaned-data map of _Question.clean (forms.py line 328):
    {f.name: await f.clean}. -/
def qData (fields : List WField) : List (String × Option String) :=
  fields.map (fun f => (f.name, fieldClean (f.value.getD "")))

/-- Session accumulator of a wizard flow: {"values": ..., "data": ...}
    stored under the wizard name. -/
structure Session where
  values : List (String × String)
  data : List (String × Option String)
deriving DecidableEq

/-- QuestionBackend.process (forms.py lines 144-151): creates the empty
    accumulator when the wizard name is not yet in the session, then
    update()s both maps with the current step's values and data. -/
def questionBackendMerge (sess : Option Session) (values : List (String × String))
    (data : List (String × Option String)) : Session :=
  let s := sess.getD { values := [], data := [] }
  { values := updAL s.values values, data := updAL s.data data }

/-- One wizard step template (the Question wrapper, forms.py lines
    292-303): field declarations plus the optional predicates dict. -/
structure QuestionSpec where
  fields : List FieldSpec
  predicates : Option (List (String × String))

/-- Wizard declaration (forms.py lines 336-366): flow name, ordered
    questions, backend chain and success URL.  Backends are abstract tags
    of type beta; the data each one is invoked with is recorded in the
    outcome. -/
structure WizardSpec (β : Type) where
  name : String
  questions : List QuestionSpec
  backends : List β
  successUrl : String

/-- Predicate gate of Wizard.next_step (forms.py lines 394-396):
    `not predicates or all(data.get(k) == v for k, v in predicates.items())`,
    where a key absent from the accumulated raw values compares unequal to
    the expected string. -/
def predOk (vals : List (String × String)) (preds : Option (List (String × String))) : Bool :=
  (preds.getD []).all (fun kv => lookupAL vals kv.1 == some kv.2)

/-- Skip loop of Wizard.next_step (forms.py lines 390-399): starting at
    i + 1, advance while the step index is below the question count and the
    step's predicates are unmet; fuel bounds the recursion and is chosen by
    findNext large enough that it never runs out before the loop condition
    fails.  Indexing uses Python semantics; the pyIndex-none branch is
    unreachable from the handler because out-of-range steps already
    raised 404 in Wizard.__init__. -/
def findNextAux (qs : List QuestionSpec) (vals : List (String × String)) :
    Nat → Int → Option Int
  | 0, _ => none
  | fuel + 1, next =>
    if next < (qs.length : Int) then
      match pyIndex qs next with
      | some q =>
        if predOk vals q.predicates then some next
        else findNextAux qs vals fuel (next + 1)
      | none => none
    else none

/-- First applicable step at or after the given start index, none when the
    loop exits with next == len(questions). -/
def findNext (qs : List QuestionSpec) (vals : List (String × String)) (start : Int) :
    Option Int :=
  findNextAux qs vals (qs.length + qs.length + 1) start

/-- Redirect URL issued by Wizard.next_step (forms.py line 397):
    f-string '/wizards/{name}/{next_step}' over the path-param name. -/
def wizardNextStepUrl (name : String) (j : Int) : String :=
  "/wizards/" ++ name ++ "/" ++ toString j

/-- Route template under which Fast.__init__ registers the wizard handler
    (core.py lines 86-88). -/
def questionsRouteTemplate : String := "/questions/{name}/{step}"

/-- Path prefix of every URL served by the registered wizard route. -/
def questionsRoutePrefix : String := "/questions/"

/-- Result of one wizard HTTP request: a 404, an in-place render of the
    step's fields, a redirect, or the finished state that invoked the
    backend chain (each backend tag paired with the data it was called
    with) and redirected to the success URL. -/
inductive Outcome (β : Type) where
  | notFound
  | render (fields : List WField)
  | redirect (url : String)
  | finished (calls : List (β × List (String × Option String))) (url : String)
deriving DecidableEq

/-- Step parsing in Fast.process_questions (core.py line 173):
    int(step or "0"), with a ValueError mapped to 404. -/
def parseStep (stepStr : String) : Option Int :=
  if strEmpty stepStr then some 0 else pyInt? stepStr

/-- GET branch of Fast.process_questions (core.py lines 176-179) for an
    already-parsed step index: the question factory is called with
    step=i and no data, so Wizard.__init__ builds the _Question with
    data=None and Form.bind assigns nothing; out-of-range indexing raises
    HTTPException 404 in Wizard.__init__ (forms.py lines 356-366).  The
    request's session is passed by the router but never consulted here. -/
def processQuestionsGetI {β : Type} (wiz : WizardSpec β) (sess : Option Session)
    (i : Int) : Outcome β :=
  match pyIndex wiz.questions i with
  | none => Outcome.notFound
  | some q =>
    let _ := sess
    Outcome.render (mkQuestionFields q.fields none)

/-- GET branch of Fast.process_questions on the raw step string. -/
def processQuestionsGet {β : Type} (wiz : WizardSpec β) (sess : Option Session)
    (stepStr : String) : Outcome β :=
  match parseStep stepStr with
  | none => Outcome.notFound
  | some i => processQuestionsGetI wiz sess i

/-- POST branch of Fast.process_questions (core.py lines 180-186) combined
    with Wizard.next_step (forms.py lines 387-401) for an already-parsed
    step index.  Returns the HTTP outcome together with the session entry
    for the wizard after the request:
    - out-of-range step: 404, session untouched;
    - invalid form: re-render with errors, session untouched;
    - valid: QuestionBackend merges the step's raw values and cleaned data
      into the accumulator, then the skip loop either redirects to the next
      applicable step or, when none is left, Wizard.process invokes each
      configured backend in order with the accumulated data and returns the
      success redirect. -/
def processQuestionsPostI {β : Type} (wiz : WizardSpec β) (sess : Option Session)
    (i : Int) (post : List (String × String)) : Outcome β × Option Session :=
  match pyIndex wiz.questions i with
  | none => (Outcome.notFound, sess)
  | some q =>
    let fields := mkQuestionFields q.fields (some post)
    if questionValid fields then
      let sess2 := questionBackendMerge sess (qValues fields) (qData fields)
      match findNext wiz.questions sess2.values (i + 1) with
      | some j => (Outcome.redirect (wizardNextStepUrl wiz.name j), some sess2)
      | none =>
          (Outcome.finished (wiz.backends.map (fun b => (b, sess2.data))) wiz.successUrl,
           some sess2)
    else (Outcome.render fields, sess)

/-- POST branch of Fast.process_questions on the raw step string. -/
def processQuestionsPost {β : Type} (wiz : WizardSpec β) (sess : Option Session)
    (stepStr : String) (post : List (String × String)) : Outcome β × Option Session :=
  match parseStep stepStr with
  | none => (Outcome.notFound, sess)
  | some i => processQuestionsPostI wiz sess i post

/-! ## Form.process and the backend chain (forms.py lines 258-267)

A backend is embedded as a state transformer that may raise: the state
type stands for everything a backend can touch (database rows, dispatched
emails, the session).  Form.process awaits each backend in list order and
the first raise aborts the chain; the `except BackendError: raise` clause
re-raises unchanged, and the success redirect is only built after the
loop. -/

/-- Sequential execution of a backend list, final state on success. -/
def runBackends {σ ε : Type} : List (σ → Except ε σ) → σ → Except ε σ
  | [], s => .ok s
  | b :: rest, s =>
    match b s with
    | .ok s2 => runBackends rest s2
    | .error e => .error e

/-- Form.process: state after the run paired with either the raised error
    or the success redirect URL. -/
def formProcess {σ ε : Type} (successUrl : String) :
    List (σ → Except ε σ) → σ → σ × Except ε String
  | [], s => (s, .ok successUrl)
  | b :: rest, s =>
    match b s with
    | .ok s2 => formProcess successUrl rest s2
    | .error e => (s, .error e)

/-- Side-effect state for the concrete [DatabaseBackend, EmailBackend]
    chain of the spec scenario: inserted database rows and dispatched
    emails. -/
structure ChainState where
  dbRows : List String
  emails : List String
deriving DecidableEq

/-- DBBackend.process (forms.py lines 57-64): inserts a record and
    succeeds. -/
def dbInsertBackend (row : String) : ChainState → Except String ChainState :=
  fun s => .ok { s with dbRows := s.dbRows ++ [row] }

/-- EmailBackend.process when delivery fails (forms.py lines 79-90): the
    HTTPError from the notifications client is logged and re-raised. -/
def emailFailBackend : ChainState → Except String ChainState :=
  fun _ => .error "HTTPError"

/-! ## The four-step spec scenario

Wizard with questions permission, health [predicate permission=yes],
ability [predicate permission=yes, health=yes] and the sex/gender block
[predicate permission=yes], mirroring the mini_equality flow the spec's
testable properties are stated against.  Steps collect plain required
fields; one abstract backend tag 0 and success URL "/". -/

def fourStepWizard : WizardSpec Nat where
  name := "mini_equality"
  questions :=
    [ { fields := [⟨"permission", true⟩], predicates := none }
    , { fields := [⟨"health", true⟩], predicates := some [("permission", "yes")] }
    , { fields := [⟨"ability", true⟩],
        predicates := some [("permission", "yes"), ("health", "yes")] }
    , { fields := [⟨"sex", true⟩, ⟨"gender", true⟩],
        predicates := some [("permission", "yes")] } ]
  backends := [0]
  successUrl := "/"

/-! ## Helper lemmas -/

theorem requiredMsg_ne_empty : requiredMsg ≠ "" := by decide

theorem ccCharsMsg_ne_empty (n : Nat) : ccCharsMsg n ≠ "" := by
  intro h
  have h2 : (ccCharsMsg n).data = [] := by rw [h]
  rw [ccCharsMsg] at h2
  simp only [String.data_append, List.append_eq_nil] at h2
  exact absurd h2.1.1 (by decide)

theorem ccWordsMsg_ne_empty (n : Nat) : ccWordsMsg n ≠ "" := by
  intro h
  have h2 : (ccWordsMsg n).data = [] := by rw [h]
  rw [ccWordsMsg] at h2
  simp only [String.data_append, List.append_eq_nil] at h2
  exact absurd h2.1.1 (by decide)

theorem lookupAL_isSome_iff {α : Type} (l : List (String × α)) (k : String) :
    (lookupAL l k).isSome = true ↔ k ∈ l.map Prod.fst := by
  simp [lookupAL, List.find?_isSome, List.mem_map]

theorem keys_setAL {α : Type} (k2 k : String) (v : α) (l : List (String × α)) :
    k2 ∈ (setAL l k v).map Prod.fst ↔ k2 = k ∨ k2 ∈ l.map Prod.fst := by
  induction l with
  | nil => simp [setAL]
  | cons p rest ih =>
    by_cases hp : (p.1 == k) = true
    · have hpk := eq_of_beq hp
      rw [setAL, if_pos hp]
      simp only [List.map_cons, List.mem_cons, hpk]
      tauto
    · rw [setAL, if_neg hp]
      simp only [List.map_cons, List.mem_cons, ih]
      tauto

theorem keys_updAL {α : Type} (k2 : String) :
    ∀ (new old : List (String × α)),
      k2 ∈ (updAL old new).map Prod.fst ↔ k2 ∈ old.map Prod.fst ∨ k2 ∈ new.map Prod.fst
  | [], old => by simp [updAL]
  | (k, v) :: rest, old => by
    rw [updAL, keys_updAL k2 rest (setAL old k v), keys_setAL]
    simp only [List.map_cons, List.mem_cons]
    tauto

theorem qData_keys (fields : List WField) :
    (qData fields).map Prod.fst = fields.map WField.name := by
  simp only [qData, List.map_map]
  rfl

theorem mkQuestionFields_names (fs : List FieldSpec) (post : List (String × String)) :
    (mkQuestionFields fs (some post)).map WField.name = fs.map FieldSpec.name := by
  simp only [mkQuestionFields, List.map_map]
  rfl

theorem formProcess_prefix {σ ε : Type} (url : String) (pre rest : List (σ → Except ε σ))
    (s0 s1 : σ) (h : runBackends pre s0 = Except.ok s1) :
    formProcess url (pre ++ rest) s0 = formProcess url rest s1 := by
  induction pre generalizing s0 with
  | nil =>
    simp only [runBackends, Except.ok.injEq] at h
    rw [List.nil_append, h]
  | cons b pre ih =>
    cases hb : b s0 with
    | ok s2 =>
      simp only [runBackends, hb] at h
      rw [List.cons_append]
      simp only [formProcess, hb]
      exact ih s2 h
    | error e =>
      simp only [runBackends, hb] at h
      exact Except.noConfusion h

theorem pyIndex_natCast {α : Type} (l : List α) (n : Nat) :
    pyIndex l (n : Int) = l.get? n := by
  simp [pyIndex]

theorem pyIndex_eq_none_iff {α : Type} (l : List α) (i : Int) :
    pyIndex l i = none ↔ ((l.length : Int) ≤ i ∨ i < -(l.length : Int)) := by
  unfold pyIndex
  split_ifs with h1 h2
  · rw [List.get?_eq_none]
    omega
  · rw [List.get?_eq_none]
    omega
  · constructor
    · intro _
      omega
    · intro _
      rfl

theorem postI_ne_notFound {β : Type} (wiz : WizardSpec β) (sess : Option Session)
    (i : Int) (post : List (String × String)) (q : QuestionSpec)
    (hq : pyIndex wiz.questions i = some q) :
    (processQuestionsPostI wiz sess i post).1 ≠ Outcome.notFound := by
  unfold processQuestionsPostI
  rw [hq]
  by_cases h : questionValid (mkQuestionFields q.fields (some post)) = true
  · simp only [h, if_true]
    split <;> simp
  · simp only [h, if_false]
    simp

/-! ## Claim theorems -/

/-- Claim C4: for every field variant (text, number, decimal, email, regex,
character-count, composite date, choice group via the inherited base setter,
file upload) with required = true, assigning an empty or absent raw value
sets the error to exactly "This field is required.", whatever error was
stored before and whatever the variant configuration is. -/
theorem required_empty_value_sets_required_message :
    ∀ (old : String) (mc mw : Option Nat) (pf : String → Bool)
      (pa : String → String) (rm : String → Bool),
      fieldSetError true old "" = requiredMsg
      ∧ numberSetError true old "" = requiredMsg
      ∧ decimalSetError pf true old "" = requiredMsg
      ∧ emailSetError pa true old "" = requiredMsg
      ∧ regexSetError rm true old "" = requiredMsg
      ∧ ccSetError mc mw true old "" = requiredMsg
      ∧ dateSetError true old DateRaw.absent = requiredMsg
      ∧ dateSetError true old (DateRaw.list3 "" "" "") = requiredMsg
      ∧ fileSetError true old FileRaw.emptyStr = requiredMsg
      ∧ fileSetError true old (FileRaw.upload none) = requiredMsg := by
  intro old mc mw pf pa rm
  exact ⟨rfl, rfl, rfl, rfl, rfl, rfl, rfl, rfl, rfl, rfl⟩

/-- Claim C5 counterexample: with required = false, NumberInput.value skips
the numeric check entirely (contrib.py gates it behind `if self.required:`),
so the malformed non-empty raw value "A12345" leaves the error empty instead
of producing "Value is not a number.". -/
theorem optional_number_input_skips_numeric_check :
    numberSetError false "" "A12345" = ""
    ∧ numberSetError false "" "A12345" ≠ "Value is not a number." :=
  ⟨rfl, by decide⟩

/-- Claim C5 (amended): for a required field, a non-empty raw value runs the
variant-specific check, setting the variant's error message on a malformed
value and leaving the error untouched on a well-formed one; when
required = false the NumberInput, DecimalInput, EmailInput, RegexInput and
DateInput setters skip their variant-specific check entirely and leave the
error unchanged, and only CharacterCount still applies its length checks
regardless of the required flag. -/
theorem nonempty_value_variant_validation :
    (∀ v, strEmpty v = false → pyInt? v = none →
        numberSetError true "" v = "Value is not a number.")
    ∧ (∀ v n, strEmpty v = false → pyInt? v = some n → numberSetError true "" v = "")
    ∧ (∀ pa v, strEmpty v = false → (pa v).contains '@' = false →
        emailSetError pa true "" v = "Value is not an email.")
    ∧ (∀ pa v, strEmpty v = false → (pa v).contains '@' = true →
        emailSetError pa true "" v = "")
    ∧ (∀ rm v, strEmpty v = false → rm v = false →
        regexSetError rm true "" v = "Value does not match the required format.")
    ∧ (∀ n v, strEmpty v = false → n ≠ 0 → strLen v > n →
        ccSetError (some n) none true "" v = ccCharsMsg n)
    ∧ (∀ old v, numberSetError false old v = old)
    ∧ (∀ pf old v, decimalSetError pf false old v = old)
    ∧ (∀ pa old v, emailSetError pa false old v = old)
    ∧ (∀ rm old v, regexSetError rm false old v = old)
    ∧ (∀ old v, dateSetError false old v = old)
    ∧ (∀ n old v, n ≠ 0 → strLen v > n → ccSetError (some n) none false old v = ccCharsMsg n) := by
  refine ⟨?_, ?_, ?_, ?_, ?_, ?_, ?_, ?_, ?_, ?_, ?_, ?_⟩
  · intro v h1 h2
    simp [numberSetError, h1, h2]
  · intro v n h1 h2
    simp [numberSetError, h1, h2]
  · intro pa v h1 h2
    simp [emailSetError, h1, h2]
  · intro pa v h1 h2
    simp [emailSetError, h1, h2]
  · intro rm v h1 h2
    simp [regexSetError, h1, h2]
  · intro n v h1 h2 h3
    simp [ccSetError, h1, h2, h3]
  · intro old v
    rfl
  · intro pf old v
    rfl
  · intro pa old v
    rfl
  · intro rm old v
    rfl
  · intro old v
    rfl
  · intro n old v h2 h3
    simp [ccSetError, h2, h3]

/-- Claim C5 witness: the amended statement instantiated at NumberInput with
"A12345" (malformed, required), "12345" (well-formed, required), "A12345"
(optional, check skipped) and the spec's CharacterCount comment longer than
its maxchars = 10 limit. -/
theorem nonempty_value_variant_validation_witness :
    numberSetError true "" "A12345" = "Value is not a number."
    ∧ numberSetError true "" "12345" = ""
    ∧ numberSetError false "" "A12345" = ""
    ∧ ccSetError (some 10) none true "" "This is a long comment." = ccCharsMsg 10 := by
  obtain ⟨h1, h2, _, _, _, h6, h7, _⟩ := nonempty_value_variant_validation
  exact ⟨h1 "A12345" rfl rfl,
         h2 "12345" 12345 rfl rfl,
         h7 "" "A12345",
         h6 10 "This is a long comment." rfl (by decide) (by decide)⟩

/-- Claim C6 counterexample: a required CharacterCount first assigned the
empty string (error becomes the required message) and then the well-formed
value "hello" keeps the stale required error, while a fresh assignment of
"hello" yields no error, so the error after an assignment is not a function
of the newly assigned raw value and the configuration alone. -/
theorem field_error_depends_on_previous_error :
    ccSetError none none true requiredMsg "hello" = requiredMsg
    ∧ ccSetError none none true "" "hello" = ""
    ∧ requiredMsg ≠ "" :=
  ⟨rfl, rfl, by decide⟩

/-- Claim C6 (amended): the error after an assignment is a function of the
previously stored error, the newly assigned raw value and the configuration:
no setter ever clears a non-empty error; the required-check runs first and
short-circuits the remaining checks; and among the checks that do run, the
last one to fire determines the final error string (for CharacterCount the
maxwords message overrides the maxchars message). -/
theorem field_error_update_discipline :
    (∀ (r : Bool) (old v : String), old ≠ "" → fieldSetError r old v ≠ "")
    ∧ (∀ (r : Bool) (old v : String), old ≠ "" → numberSetError r old v ≠ "")
    ∧ (∀ (pf : String → Bool) (r : Bool) (old v : String), old ≠ "" →
        decimalSetError pf r old v ≠ "")
    ∧ (∀ (pa : String → String) (r : Bool) (old v : String), old ≠ "" →
        emailSetError pa r old v ≠ "")
    ∧ (∀ (rm : String → Bool) (r : Bool) (old v : String), old ≠ "" →
        regexSetError rm r old v ≠ "")
    ∧ (∀ (mc mw : Option Nat) (r : Bool) (old v : String), old ≠ "" →
        ccSetError mc mw r old v ≠ "")
    ∧ (∀ (r : Bool) (old : String) (v : DateRaw), old ≠ "" → dateSetError r old v ≠ "")
    ∧ (∀ (r : Bool) (old : String) (v : FileRaw), old ≠ "" → fileSetError r old v ≠ "")
    ∧ (∀ (mc mw : Option Nat) (old : String), ccSetError mc mw true old "" = requiredMsg)
    ∧ (∀ (n1 n2 : Nat) (old v : String), strEmpty v = false →
        n1 ≠ 0 → strLen v > n1 → n2 ≠ 0 → pyWordCount v > n2 →
        ccSetError (some n1) (some n2) true old v = ccWordsMsg n2) := by
  refine ⟨?_, ?_, ?_, ?_, ?_, ?_, ?_, ?_, ?_, ?_⟩
  · intro r old v h
    unfold fieldSetError
    split_ifs
    · decide
    · exact h
  · intro r old v h
    cases r
    · exact h
    · unfold numberSetError
      split_ifs <;> first | exact h | decide
  · intro pf r old v h
    cases r
    · exact h
    · unfold decimalSetError
      split_ifs <;> first | exact h | decide
  · intro pa r old v h
    cases r
    · exact h
    · unfold emailSetError
      split_ifs <;> first | exact h | decide
  · intro rm r old v h
    cases r
    · exact h
    · unfold regexSetError
      split_ifs <;> first | exact h | decide
  · intro mc mw r old v h
    unfold ccSetError
    split_ifs with h1
    · decide
    · rcases mw with _ | n2
      · rcases mc with _ | n1
        · exact h
        · dsimp only
          split_ifs
          · exact ccCharsMsg_ne_empty n1
          · exact h
      · dsimp only
        split_ifs with h2
        · exact ccWordsMsg_ne_empty n2
        · rcases mc with _ | n1
          · exact h
          · dsimp only
            split_ifs
            · exact ccCharsMsg_ne_empty n1
            · exact h
  · intro r old v h
    cases r
    · exact h
    · cases v with
      | absent => exact requiredMsg_ne_empty
      | list3 d m y =>
        unfold dateSetError
        dsimp only [dateStore, dateParts]
        split_ifs <;> try first | exact h | decide
        split <;> first | exact h | decide | (split_ifs <;> first | exact h | decide)
  · intro r old v h
    unfold fileSetError
    split_ifs
    · decide
    · exact h
  · intro mc mw old
    rfl
  · intro n1 n2 old v h0 h1 h2 h3 h4
    simp [ccSetError, h0, h3, h4]

/-- Claim C6 witness: the amended statement instantiated at a required
NumberInput with stale error "boom" and value "5" (error not cleared), at
CharacterCount with empty input under limits (required message wins first),
and at CharacterCount with maxchars = 3, maxwords = 1 on "aa bb cc" (the
word check, running last, determines the error). -/
theorem field_error_update_discipline_witness :
    numberSetError true "boom" "5" ≠ ""
    ∧ ccSetError (some 3) (some 1) true "boom" "" = requiredMsg
    ∧ ccSetError (some 3) (some 1) true "" "aa bb cc" = ccWordsMsg 1 := by
  obtain ⟨_, h2, _, _, _, _, _, _, h9, h10⟩ := field_error_update_discipline
  exact ⟨h2 true "boom" "5" (by decide),
         h9 (some 3) (some 1) "boom",
         h10 3 1 "" "aa bb cc" rfl (by decide) (by decide) (by decide) (by decide)⟩

/-- Claim C7 counterexample: an optional DateInput whose key is absent from
the bound data stores the tuple ("", "", "") (no error recorded), but
DateInput.clean compares the stored value against the list ["", "", ""],
which a Python tuple never equals, so clean raises ValueError from int("")
instead of returning None. -/
theorem optional_absent_date_clean_raises :
    dateSetError false "" DateRaw.absent = ""
    ∧ dateClean (dateStore DateRaw.absent) = Except.error "ValueError"
    ∧ dateClean (dateStore DateRaw.absent) ≠ Except.ok none :=
  ⟨rfl, rfl, fun hc => Except.noConfusion hc⟩

/-- Claim C7 (amended): for a posted (day, month, year) triple whose
components parse with int() and form a real calendar date, the setter
records no error and clean() returns the ISO-8601 string; clean() returns
None exactly when the stored raw value is the posted list ["", "", ""]
(all three components submitted empty), while an absent raw value — stored
as the tuple ("", "", "") — makes clean() raise ValueError instead of
returning None. -/
theorem date_clean_iso_and_empty (d m y : String) (dd mm yy : Int)
    (hde : strEmpty d = false) (hme : strEmpty m = false) (hye : strEmpty y = false)
    (hd : pyInt? d = some dd) (hm : pyInt? m = some mm) (hy : pyInt? y = some yy)
    (hvalid : isValidDate yy mm dd = true) :
    dateSetError true "" (DateRaw.list3 d m y) = ""
    ∧ dateClean (dateStore (DateRaw.list3 d m y)) = Except.ok (some (isoDate yy mm dd))
    ∧ dateClean (dateStore (DateRaw.list3 "" "" "")) = Except.ok none
    ∧ dateClean (dateStore DateRaw.absent) = Except.error "ValueError" := by
  refine ⟨?_, ?_, rfl, rfl⟩
  · unfold dateSetError
    dsimp only [dateStore, dateParts]
    simp [hde, hme, hye, hd, hm, hy, hvalid]
  · have hne : DateStored.lst d m y ≠ DateStored.lst "" "" "" := by
      intro hc
      rw [DateStored.lst.injEq] at hc
      rw [hc.1] at hde
      exact absurd hde (by decide)
    unfold dateClean
    dsimp only [dateStore, dateParts]
    rw [if_neg hne]
    simp [hd, hm, hy, hvalid]

/-- Claim C7 witness: day = 10, month = 10, year = 2000 gives no error and
clean() returns "2000-10-10". -/
theorem date_clean_iso_and_empty_witness :
    dateSetError true "" (DateRaw.list3 "10" "10" "2000") = ""
    ∧ dateClean (dateStore (DateRaw.list3 "10" "10" "2000")) = Except.ok (some "2000-10-10") := by
  have h := date_clean_iso_and_empty "10" "10" "2000" 10 10 2000 rfl rfl rfl rfl rfl rfl rfl
  exact ⟨h.1, h.2.1⟩

/-- Claim C10: Radios and Checkboxes validate through the inherited base
Field setter, so a non-empty raw value never sets an error — membership in
the declared choices is not checked and the bound form stays valid — and
when the submitted value matches none of the declared choice values, clean
returns None, silently persisting None for that field. -/
theorem choice_value_not_validated :
    (∀ (r : Bool) (v : String), strEmpty v = false → fieldSetError r "" v = "")
    ∧ (∀ (radios : List (String × String)) (v : String),
        (∀ p ∈ radios, p.1 ≠ v) → radiosClean radios v = none)
    ∧ (∀ (cbs : List (String × String)) (v : String),
        (∀ p ∈ cbs, p.1 ≠ v) → checkboxesClean cbs v = none)
    ∧ (∀ (f : FieldSpec) (v : String), strEmpty v = false →
        questionValid [bindField f [(f.name, v)]] = true) := by
  refine ⟨?_, ?_, ?_, ?_⟩
  · intro r v h
    simp [fieldSetError, h]
  · intro radios v h
    have hf : radios.find? (fun rv => rv.1 == v) = none :=
      List.find?_eq_none.2 (fun x hx => by simpa using h x hx)
    simp [radiosClean, hf]
  · intro cbs v h
    have hf : cbs.find? (fun cb => cb.1 == v) = none :=
      List.find?_eq_none.2 (fun x hx => by simpa using h x hx)
    simp [checkboxesClean, hf]
  · intro f v h
    simp [questionValid, bindField, fieldSetError, lookupAL, List.find?, h]

/-- Claim C10 witness: value "banana" against the satisfaction choices sets
no error, keeps the form valid, and cleans to None for both Radios and
Checkboxes. -/
theorem choice_value_not_validated_witness :
    fieldSetError true "" "banana" = ""
    ∧ radiosClean [("satisfied", "Satisfied"), ("dissatisfied", "Dissatisfied")] "banana" = none
    ∧ checkboxesClean [("yes", "Yes"), ("no", "No")] "banana" = none
    ∧ questionValid [bindField ⟨"satisfaction", true⟩ [("satisfaction", "banana")]] = true := by
  obtain ⟨h1, h2, h3, h4⟩ := choice_value_not_validated
  exact ⟨h1 true "banana" rfl,
         h2 [("satisfied", "Satisfied"), ("dissatisfied", "Dissatisfied")] "banana" (by decide),
         h3 [("yes", "Yes"), ("no", "No")] "banana" (by decide),
         h4 ⟨"satisfaction", true⟩ "banana" rfl⟩

/-- Claim C1: on a valid POST at step i, Wizard.next_step does select the
smallest applicable later step (skipping steps whose predicate is unmet
against the accumulated raw values, an absent key counting as a non-match)
and answers with an HTTP redirect rather than an in-place render — but the
redirect URL is built with the "/wizards/" prefix (forms.py line 397),
while the wizard itself is registered and served only under
"/questions/{name}/{step}" (core.py line 86), so the redirect does not
target the wizard's own step URL.  Evaluated on the four-step scenario:
POST step 0 with permission = yes redirects to /wizards/mini_equality/1,
and POST step 1 with health = no skips step 2 and redirects to
/wizards/mini_equality/3; neither URL lies under the registered route
prefix. -/
theorem wizard_redirect_unregistered_prefix :
    (processQuestionsPost fourStepWizard none "0" [("permission", "yes")]).1
      = Outcome.redirect "/wizards/mini_equality/1"
    ∧ (processQuestionsPost fourStepWizard
         (some { values := [("permission", "yes")], data := [("permission", some "yes")] })
         "1" [("health", "no")]).1
      = Outcome.redirect "/wizards/mini_equality/3"
    ∧ questionsRouteTemplate = "/questions/{name}/{step}"
    ∧ strStartsWith "/wizards/mini_equality/1" questionsRoutePrefix = false
    ∧ strStartsWith "/wizards/mini_equality/3" questionsRoutePrefix = false :=
  ⟨rfl, rfl, rfl, rfl, rfl⟩

/-- Claim C2: when a valid POST at step i leaves no applicable later step
(the skip loop exits with next = N), the wizard invokes each configured
backend exactly once, in order, with the full accumulated cleaned-data map,
and returns the success redirect; and every key of that final map comes
either from the accumulator as it stood before this request or from a field
of the question that was just completed — skipped questions contribute
nothing. -/
theorem wizard_finish_invokes_backends_once {β : Type} (wiz : WizardSpec β)
    (sess : Option Session) (i : Nat) (post : List (String × String)) (q : QuestionSpec)
    (hq : wiz.questions.get? i = some q)
    (hvalid : questionValid (mkQuestionFields q.fields (some post)) = true)
    (hnone : findNext wiz.questions
        (questionBackendMerge sess (qValues (mkQuestionFields q.fields (some post)))
          (qData (mkQuestionFields q.fields (some post)))).values ((i : Int) + 1) = none) :
    processQuestionsPostI wiz sess (i : Int) post
      = (Outcome.finished
          (wiz.backends.map (fun b =>
            (b, (questionBackendMerge sess (qValues (mkQuestionFields q.fields (some post)))
                  (qData (mkQuestionFields q.fields (some post)))).data)))
          wiz.successUrl,
         some (questionBackendMerge sess (qValues (mkQuestionFields q.fields (some post)))
                (qData (mkQuestionFields q.fields (some post)))))
    ∧ ∀ k, (lookupAL (questionBackendMerge sess
              (qValues (mkQuestionFields q.fields (some post)))
              (qData (mkQuestionFields q.fields (some post)))).data k).isSome = true →
        (lookupAL (sess.getD { values := [], data := [] }).data k).isSome = true
        ∨ k ∈ q.fields.map FieldSpec.name := by
  constructor
  · unfold processQuestionsPostI
    rw [pyIndex_natCast, hq]
    simp only [hvalid, if_true, hnone]
  · intro k hk
    have h1 := (lookupAL_isSome_iff _ _).1 hk
    simp only [questionBackendMerge] at h1
    rcases (keys_updAL k _ _).1 h1 with h | h
    · exact Or.inl ((lookupAL_isSome_iff _ _).2 h)
    · right
      rw [qData_keys, mkQuestionFields_names] at h
      exact h

/-- Claim C2 witness: the four-step scenario, POST step 0 with
permission = no.  Steps 1-3 all have unmet predicates, so the wizard
finishes immediately: the single backend is invoked once with the full
accumulated data {permission: no} (and nothing else), and the outcome is
the redirect to the success URL "/". -/
theorem wizard_finish_invokes_backends_once_witness :
    processQuestionsPostI fourStepWizard none (0 : Nat) [("permission", "no")]
      = (Outcome.finished [(0, [("permission", some "no")])] "/",
         some { values := [("permission", "no")], data := [("permission", some "no")] }) := by
  have h := wizard_finish_invokes_backends_once fourStepWizard none 0 [("permission", "no")]
      { fields := [⟨"permission", true⟩], predicates := none } rfl rfl rfl
  exact h.1

/-- Claim C3: Form.process awaits each backend strictly in list order; if
one raises, no later backend runs, the error propagates to the caller
instead of a success redirect, and the side effects of the earlier backends
stay in place with no rollback. -/
theorem backend_chain_failure_propagates {σ ε : Type} (url : String)
    (pre rest : List (σ → Except ε σ)) (b : σ → Except ε σ) (s0 s1 : σ) (e : ε)
    (hpre : runBackends pre s0 = Except.ok s1)
    (hb : b s1 = Except.error e) :
    formProcess url (pre ++ b :: rest) s0 = (s1, Except.error e)
    ∧ ∀ r : String, formProcess url (pre ++ b :: rest) s0 ≠ (s1, Except.ok r) := by
  have h := formProcess_prefix url pre (b :: rest) s0 s1 hpre
  constructor
  · rw [h]
    simp [formProcess, hb]
  · intro r
    rw [h]
    simp [formProcess, hb]

/-- Claim C3 witness: the chain [DatabaseBackend, EmailBackend] where the
email dispatch raises — the caller observes the raised HTTPError, not a
success redirect, even though the database row was already inserted. -/
theorem backend_chain_failure_propagates_witness :
    formProcess "/" [dbInsertBackend "feedback-row", emailFailBackend]
        { dbRows := [], emails := [] }
      = ({ dbRows := ["feedback-row"], emails := [] }, Except.error "HTTPError") := by
  have h := backend_chain_failure_propagates "/" [dbInsertBackend "feedback-row"] []
      emailFailBackend { dbRows := [], emails := [] }
      { dbRows := ["feedback-row"], emails := [] } "HTTPError" rfl rfl
  exact h.1

/-- Claim C8 counterexample: with the accumulator holding the previously
submitted raw value permission = yes, a GET of step 0 renders the
permission field with no value at all (the GET handler calls the question
factory without data, so Form.bind never runs and the session accumulator
is never consulted) — not with the stored value "yes" as the claim
states. -/
theorem wizard_get_ignores_accumulator :
    processQuestionsGet fourStepWizard
        (some { values := [("permission", "yes")], data := [("permission", some "yes")] }) "0"
      = Outcome.render [{ name := "permission", required := true, error := "", value := none }]
    ∧ processQuestionsGet fourStepWizard
        (some { values := [("permission", "yes")], data := [("permission", some "yes")] }) "0"
      ≠ Outcome.render [{ name := "permission", required := true, error := "", value := some "yes" }] :=
  ⟨rfl, by decide⟩

/-- Claim C8 (amended): a GET of an in-range step i renders Question[i]
with freshly constructed, unbound fields — the factory is called with
data = None, so every rendered field carries no value and no error, and the
response is entirely independent of the session accumulator; previously
submitted answers are not re-displayed. -/
theorem wizard_get_renders_unbound {β : Type} (wiz : WizardSpec β)
    (sess sess2 : Option Session) (stepStr : String) (i : Int) (q : QuestionSpec)
    (hq : pyIndex wiz.questions i = some q) :
    processQuestionsGet wiz sess stepStr = processQuestionsGet wiz sess2 stepStr
    ∧ processQuestionsGetI wiz sess i = Outcome.render (q.fields.map unboundField)
    ∧ ∀ f ∈ q.fields.map unboundField, f.value = none ∧ f.error = "" := by
  refine ⟨rfl, ?_, ?_⟩
  · unfold processQuestionsGetI
    rw [hq]
    rfl
  · intro f hf
    obtain ⟨g, _, rfl⟩ := List.mem_map.1 hf
    exact ⟨rfl, rfl⟩

/-- Claim C8 witness: GET of step 0 of the four-step scenario with a
populated accumulator renders the permission field unbound. -/
theorem wizard_get_renders_unbound_witness :
    processQuestionsGetI fourStepWizard
        (some { values := [("permission", "yes")], data := [("permission", some "yes")] }) 0
      = Outcome.render [unboundField ⟨"permission", true⟩]
    ∧ (unboundField (⟨"permission", true⟩ : FieldSpec)).value = none := by
  have h := wizard_get_renders_unbound fourStepWizard
      (some { values := [("permission", "yes")], data := [("permission", some "yes")] })
      none "0" 0 { fields := [⟨"permission", true⟩], predicates := none } rfl
  exact ⟨h.2.1, (h.2.2 _ (by simp)).1⟩

/-- Claim C9 counterexample: with four questions, step index -1 is outside
[0, N) but neither GET nor POST produces a NotFound response — Python's
negative indexing makes questions[-1] resolve to the last question, which
is rendered (GET) or processed (POST, here redirecting to step 0 because
step -1 + 1 = 0). -/
theorem negative_step_index_not_notfound :
    processQuestionsGet fourStepWizard none "-1"
      = Outcome.render [unboundField ⟨"sex", true⟩, unboundField ⟨"gender", true⟩]
    ∧ processQuestionsGet fourStepWizard none "-1" ≠ Outcome.notFound
    ∧ (processQuestionsPost fourStepWizard none "-1"
         [("sex", "skip"), ("gender", "skip")]).1 ≠ Outcome.notFound :=
  ⟨rfl, by decide, by decide⟩

/-- Claim C9 (amended): GET and POST of a wizard step produce NotFound
exactly when the step string fails to parse as an integer, or the parsed
index i satisfies i ≥ N or i < -N; indices in [-N, 0) are served through
Python's negative indexing as question N + i rather than rejected. -/
theorem wizard_notfound_characterisation {β : Type} (wiz : WizardSpec β)
    (sess : Option Session) (stepStr : String) (post : List (String × String)) :
    (processQuestionsGet wiz sess stepStr = Outcome.notFound
      ↔ (parseStep stepStr = none
         ∨ ∃ i, parseStep stepStr = some i
             ∧ ((wiz.questions.length : Int) ≤ i ∨ i < -(wiz.questions.length : Int))))
    ∧ ((processQuestionsPost wiz sess stepStr post).1 = Outcome.notFound
      ↔ (parseStep stepStr = none
         ∨ ∃ i, parseStep stepStr = some i
             ∧ ((wiz.questions.length : Int) ≤ i ∨ i < -(wiz.questions.length : Int)))) := by
  cases hp : parseStep stepStr with
  | none =>
    constructor
    · simp [processQuestionsGet, hp]
    · simp [processQuestionsPost, hp]
  | some i =>
    cases hqi : pyIndex wiz.questions i with
    | none =>
      have hr := (pyIndex_eq_none_iff wiz.questions i).1 hqi
      constructor
      · simp only [processQuestionsGet, hp, processQuestionsGetI, hqi]
        simp only [Option.some.injEq]
        constructor
        · intro _
          exact Or.inr ⟨i, rfl, hr⟩
        · intro _
          trivial
      · simp only [processQuestionsPost, hp, processQuestionsPostI, hqi]
        constructor
        · intro _
          exact Or.inr ⟨i, rfl, hr⟩
        · intro _
          trivial
    | some q =>
      have hnr : ¬((wiz.questions.length : Int) ≤ i ∨ i < -(wiz.questions.length : Int)) := by
        intro hr
        have h2 := (pyIndex_eq_none_iff wiz.questions i).2 hr
        rw [h2] at hqi
        exact Option.noConfusion hqi
      constructor
      · simp only [processQuestionsGet, hp, processQuestionsGetI, hqi]
        constructor
        · intro hcon
          exact absurd hcon (by simp)
        · rintro (hc | ⟨j, hj, hrj⟩)
          · exact absurd hc (by simp)
          · injection hj with hij
            subst hij
            exact absurd hrj hnr
      · simp only [processQuestionsPost, hp]
        constructor
        · intro hcon
          exact absurd hcon (postI_ne_notFound wiz sess i post q hqi)
        · rintro (hc | ⟨j, hj, hrj⟩)
          · exact absurd hc (by simp)
          · injection hj with hij
            subst hij
            exact absurd hrj hnr

end FastGovUk
